import Mathlib

/-
  Verification of the codex-account-orchestrator gateway core against its
  specification. Definitions are shallow embeddings of the TypeScript
  sources (src/gateway/account_pool.ts, src/gateway/openai_gateway.ts,
  src/account_manager.ts, and the http server wrapper); the current time is
  passed explicitly where the source reads Date.now(), JS number fields are
  Int, values that may be undefined at runtime are Option, and JS
  truthiness tests are spelled out where the source relies on them.
-/

/-- Token pair held by an account (gateway token model). In the source the
access and refresh tokens are typed as required strings, but the refresh
payload can lack them at runtime, so they are Options here; derived JWT
claim fields other than the expiry are elided because no claim uses them. -/
structure TokenPair where
  accessToken : Option String := none
  refreshToken : Option String := none
  idToken : Option String := none
  accountId : Option String := none
  expiresAtMs : Option Int := none
  deriving DecidableEq, Repr

/-- In-memory account state held by the pool (account_pool.ts, AccountState). -/
structure AccountState where
  name : String
  tokens : TokenPair := {}
  cooldownUntilMs : Int := 0
  lastError : Option String := none
  consecutiveFailures : Nat := 0
  deriving DecidableEq, Repr

/-- Persisted per-account status record (the patch target of
updateAccountStatus in account_status_store); every field is optional. -/
structure AccountStatus where
  lastAttemptAtMs : Option Int := none
  lastSuccessAtMs : Option Int := none
  lastQuotaAtMs : Option Int := none
  cooldownUntilMs : Option Int := none
  consecutiveFailures : Option Nat := none
  lastError : Option String := none
  deriving DecidableEq, Repr

/-- The auth.json contents written by persistTokens (account_pool.ts); the
nested tokens object is flattened into the four token fields. -/
structure AccountTokensFile where
  OPENAI_API_KEY : Option String := none
  access_token : Option String := none
  refresh_token : Option String := none
  id_token : Option String := none
  account_id : Option String := none
  deriving DecidableEq, Repr

/-- Registry of account names with a nominated default (registry_store). The
default may be null, modelled none. -/
structure Registry where
  accounts : List String
  default_account : Option String := none
  deriving DecidableEq, Repr

namespace AccountPool

/-- The quota cooldown deadline computed by markQuota (account_pool.ts line
118): resetsAtMs if it is truthy and beyond now, else now plus
cooldownSeconds in ms. JS truthiness of resetsAtMs also rejects 0. -/
def quotaDeadline (resetsAtMs : Option Int) (cooldownSeconds now : Int) : Int :=
  match resetsAtMs with
  | some r => if r ≠ 0 ∧ r > now then r else now + cooldownSeconds * 1000
  | none => now + cooldownSeconds * 1000

/-- In-memory effect of AccountPool.markQuota (account_pool.ts lines 114-121). -/
def markQuota (a : AccountState) (cooldownSeconds : Int) (resetsAtMs : Option Int)
    (now : Int) : AccountState :=
  { a with
    consecutiveFailures := a.consecutiveFailures + 1
    lastError := some "usage_limit_reached"
    cooldownUntilMs := quotaDeadline resetsAtMs cooldownSeconds now }

/-- Status patch submitted by markQuota (account_pool.ts lines 122-129). -/
def markQuotaStatus (prev : AccountStatus) (cooldownSeconds : Int)
    (resetsAtMs : Option Int) (now : Int) : AccountStatus :=
  { prev with
    lastAttemptAtMs := some now
    lastQuotaAtMs := some now
    cooldownUntilMs := some (quotaDeadline resetsAtMs cooldownSeconds now)
    consecutiveFailures := some ((prev.consecutiveFailures.getD 0) + 1)
    lastError := some "usage_limit_reached" }

/-- In-memory effect of AccountPool.markAuthFailure (account_pool.ts lines
132-137): a fixed sixty second penalty. -/
def markAuthFailure (a : AccountState) (message : String) (now : Int) : AccountState :=
  { a with
    consecutiveFailures := a.consecutiveFailures + 1
    lastError := some message
    cooldownUntilMs := now + 60 * 1000 }

/-- Status patch submitted by markAuthFailure (account_pool.ts lines 139-145). -/
def markAuthFailureStatus (prev : AccountStatus) (message : String) (now : Int) :
    AccountStatus :=
  { prev with
    lastAttemptAtMs := some now
    cooldownUntilMs := some (now + 60 * 1000)
    consecutiveFailures := some ((prev.consecutiveFailures.getD 0) + 1)
    lastError := some message }

/-- In-memory effect of AccountPool.markSuccess (account_pool.ts lines
148-151): it resets the failure counter and the error, and does not touch
the in-memory cooldownUntilMs field. -/
def markSuccess (a : AccountState) : AccountState :=
  { a with consecutiveFailures := 0, lastError := none }

/-- Status patch submitted by markSuccess (account_pool.ts lines 153-160):
here the persisted cooldown is cleared. -/
def markSuccessStatus (prev : AccountStatus) (now : Int) : AccountStatus :=
  { prev with
    lastAttemptAtMs := some now
    lastSuccessAtMs := some now
    consecutiveFailures := some 0
    cooldownUntilMs := none
    lastError := none }

/-- In-memory effect of AccountPool.updateTokens (account_pool.ts lines
163-165): only the tokens field is replaced. -/
def updateTokens (a : AccountState) (tokens : TokenPair) : AccountState :=
  { a with tokens := tokens }

/-- The auth.json contents written by persistTokens (account_pool.ts lines
216-230). -/
def persistTokens (tokens : TokenPair) : AccountTokensFile :=
  { OPENAI_API_KEY := none
    access_token := tokens.accessToken
    refresh_token := tokens.refreshToken
    id_token := tokens.idToken
    account_id := tokens.accountId }

/-- Status patch submitted by updateTokens (account_pool.ts lines 167-173). -/
def updateTokensStatus (prev : AccountStatus) (now : Int) : AccountStatus :=
  { prev with
    lastSuccessAtMs := some now
    consecutiveFailures := some 0
    cooldownUntilMs := none
    lastError := none }

/-- AccountPool.pickNextAvailable (account_pool.ts lines 87-103): walk the
pool order, skipping excluded names and accounts still cooling down. -/
def pickNextAvailable (accounts : List AccountState) (excluded : List String)
    (now : Int) : Option AccountState :=
  match accounts with
  | [] => none
  | a :: rest =>
    if excluded.contains a.name then pickNextAvailable rest excluded now
    else if a.cooldownUntilMs > now then pickNextAvailable rest excluded now
    else some a

end AccountPool

/-- getAccountOrder (account_manager.ts lines 120-133): default account
first, then the remaining registered accounts in order. The JS falsiness
test on the default name also treats the empty string as absent. -/
def getAccountOrder (r : Registry) : List String :=
  if r.accounts = [] then []
  else
    match r.default_account with
    | none => r.accounts
    | some d => if d = "" then r.accounts else d :: r.accounts.filter (fun n => n ≠ d)

/-- isTokenFresh (openai_gateway.ts lines 924-931). The JS guard is a
truthiness test, so an expiry equal to 0 is treated like an absent expiry. -/
def isTokenFresh (expiresAtMs : Option Int) (bufferSeconds now : Int) : Bool :=
  match expiresAtMs with
  | none => true
  | some e => if e = 0 then true else decide (e - now > bufferSeconds * 1000)

/-- Gateway configuration (gateway_config.ts); fields not used by any claim
are elided. -/
structure GatewayConfig where
  baseUrl : String := "https://chatgpt.com/backend-api/codex"
  cooldownSeconds : Int := 900
  maxRetryPasses : Nat := 1
  requestTimeoutMs : Int := 120000
  upstreamMaxRetries : Int := 2
  overrideAuth : Bool := true
  deriving DecidableEq, Repr

/-- The upstream response body as the classifier observes it: the raw text,
whether JSON.parse succeeds, and the parsed error object fields read by
tryReadErrorBody (error.type and error.resets_at when present). -/
structure UpstreamBody where
  rawText : String := ""
  jsonOk : Bool := false
  errType : Option String := none
  errResetsAt : Option Int := none
  deriving DecidableEq, Repr

/-- One call of the underlying transport, as seen by fetchOnce: either a
response arrived, or fetch threw an AbortError (timeout or client abort),
or fetch threw some other network error. -/
inductive FetchOutcome where
  | response (status : Int) (body : UpstreamBody)
  | abortError
  | netError (message : String)
  deriving DecidableEq, Repr

/-- The tagged result a single forward attempt produces (openai_gateway.ts
ForwardResult); the streaming Response object is elided. -/
structure ForwardResult where
  ok : Bool
  status : Int
  quota : Bool
  authFailure : Bool
  aborted : Bool := false
  retryable : Bool := false
  resetAtMs : Option Int := none
  bodyText : Option String := none
  deriving DecidableEq, Repr

/-- The response.ok predicate of the fetch API: status in the 2xx range. -/
def respOk (status : Int) : Bool :=
  decide (200 ≤ status) && decide (status < 300)

/-- isRetryableStatus (openai_gateway.ts lines 763-765). -/
def isRetryableStatus (status : Int) : Bool :=
  decide (500 ≤ status) && decide (status < 600)

/-- What tryReadErrorBody returns when it returns an object. -/
structure ErrorBodyInfo where
  quota : Bool
  resetAtMs : Option Int := none
  rawText : String
  deriving DecidableEq, Repr

/-- The JS expression parsed.error.resets_at ? parsed.error.resets_at * 1000
: undefined (truthiness: a 0 value yields undefined). -/
def resetsAtTimes1000 (resetsAt : Option Int) : Option Int :=
  match resetsAt with
  | some v => if v = 0 then none else some (v * 1000)
  | none => none

/-- tryReadErrorBody (openai_gateway.ts lines 731-761): returns none for 2xx
responses; otherwise classifies quota from the parsed error type or a 429
status, falling back to the 429 test when JSON.parse throws. -/
def tryReadErrorBody (status : Int) (body : UpstreamBody) : Option ErrorBodyInfo :=
  if respOk status then none
  else if body.jsonOk then
    if body.errType = some "usage_limit_reached" then
      some { quota := true, resetAtMs := resetsAtTimes1000 body.errResetsAt,
             rawText := body.rawText }
    else if status = 429 then
      some { quota := true, resetAtMs := resetsAtTimes1000 body.errResetsAt,
             rawText := body.rawText }
    else
      some { quota := false, rawText := body.rawText }
  else
    if status = 429 then some { quota := true, rawText := body.rawText }
    else some { quota := false, rawText := body.rawText }

/-- OpenAiGateway.fetchOnce (openai_gateway.ts lines 163-274) as a function
of one transport outcome. The outerAborted flag stands for the state of
the caller-supplied abort signal (constant here: the model covers requests
whose client either stays connected or was gone from the start). -/
def fetchOnce (outerAborted : Bool) (outcome : FetchOutcome) : ForwardResult :=
  match outcome with
  | .response status body =>
    if status = 401 || status = 403 then
      { ok := false, status := status, authFailure := true, quota := false,
        retryable := false, bodyText := some body.rawText }
    else
      match tryReadErrorBody status body with
      | some errorBody =>
        if errorBody.quota then
          { ok := false, status := status, authFailure := false, quota := true,
            retryable := false, resetAtMs := errorBody.resetAtMs,
            bodyText := some errorBody.rawText }
        else if !(respOk status) then
          { ok := false, status := status, authFailure := false, quota := false,
            retryable := isRetryableStatus status, bodyText := some errorBody.rawText }
        else
          { ok := true, status := status, quota := false, authFailure := false }
      | none =>
        if !(respOk status) then
          { ok := false, status := status, authFailure := false, quota := false,
            retryable := isRetryableStatus status, bodyText := some body.rawText }
        else
          { ok := true, status := status, quota := false, authFailure := false }
  | .abortError =>
    if outerAborted then
      { ok := false, status := 499, authFailure := false, quota := false,
        aborted := true, retryable := false, bodyText := some "client_aborted" }
    else
      { ok := false, status := 504, authFailure := false, quota := false,
        retryable := true, bodyText := some "gateway_timeout" }
  | .netError message =>
    { ok := false, status := 502, authFailure := false, quota := false,
      retryable := true, bodyText := some message }

/-- normalizeRetryCount (openai_gateway.ts lines 767-772) on Int inputs:
clamp below at zero (Int values are always finite and integral). -/
def normalizeRetryCount (value : Int) : Nat :=
  value.toNat

/-- The condition under which fetchWithRetry returns a result at once
without consulting the retry budget (openai_gateway.ts line 304). -/
def stopsRetry (r : ForwardResult) : Bool :=
  r.ok || r.quota || r.authFailure || r.aborted

/-- The loop of OpenAiGateway.fetchWithRetry (openai_gateway.ts lines
289-325). The transport maps the attempt index to that outcome of that call; fuel
is the number of attempts still allowed, so the source guard attempt >=
maxAttempts - 1 is fuel = 1, and the value after the loop (line 327) is the
fuel = 0 case. Returns the result together with the number of transport
calls made. Backoff delays are not modelled (no claim depends on timing);
with a never-aborted signal sleepWithAbort always continues. -/
def fetchWithRetryGo (transport : Nat → FetchOutcome) (outerAborted : Bool) :
    Nat → Nat → ForwardResult × Nat
  | _, 0 =>
    ({ ok := false, status := 502, authFailure := false, quota := false,
       retryable := false, bodyText := some "gateway_retry_exhausted" }, 0)
  | attempt, fuel + 1 =>
    if outerAborted then
      ({ ok := false, status := 499, authFailure := false, quota := false,
         aborted := true, retryable := false, bodyText := some "client_aborted" }, 0)
    else
      let result := fetchOnce outerAborted (transport attempt)
      if stopsRetry result then (result, 1)
      else if !result.retryable || fuel = 0 then (result, 1)
      else
        let rest := fetchWithRetryGo transport outerAborted (attempt + 1) fuel
        (rest.1, rest.2 + 1)

/-- OpenAiGateway.fetchWithRetry (openai_gateway.ts lines 276-335). -/
def fetchWithRetry (cfg : GatewayConfig) (transport : Nat → FetchOutcome)
    (outerAborted : Bool) : ForwardResult × Nat :=
  fetchWithRetryGo transport outerAborted 0
    (normalizeRetryCount cfg.upstreamMaxRetries + 1)

/-- The String.prototype.split(",") of the source on a character list:
every comma starts a new piece, and an empty input yields one empty piece. -/
def splitOnComma : List Char → List (List Char)
  | [] => [[]]
  | c :: rest =>
    let pieces := splitOnComma rest
    if c = ',' then [] :: pieces
    else
      match pieces with
      | [] => [[c]]
      | h :: t => (c :: h) :: t

/-- ASCII whitespace recognised by the trim of the source (the inputs in
play are ASCII). -/
def isTrimmedSpace (c : Char) : Bool :=
  c = ' ' || c = '\t' || c = '\n' || c = '\r'

/-- The String.prototype.trim of the source on a character list. -/
def trimChars (l : List Char) : List Char :=
  ((l.dropWhile isTrimmedSpace).reverse.dropWhile isTrimmedSpace).reverse

/-- shouldForceQuota (openai_gateway.ts lines 615-626): env is the value of
CAO_FORCE_QUOTA_ACCOUNTS, none when unset; the JS falsiness guard also
rejects the empty string; entries are split on commas, trimmed, and empty
entries dropped by filter(Boolean). -/
def shouldForceQuota (env : Option String) (accountName : String) : Bool :=
  match env with
  | none => false
  | some forced =>
    if forced = "" then false
    else
      ((((splitOnComma forced.toList).map trimChars).map String.mk).filter
        (fun n => n ≠ "")).contains accountName

/-- JS falsiness of an optional string: undefined or the empty string. -/
def strFalsy (s : Option String) : Bool :=
  match s with
  | none => true
  | some v => v = ""

/-- What the OAuth token endpoint answered: HTTP status, raw body text, and
the token fields of the parsed JSON payload (absent fields are none). -/
structure TokenEndpointReply where
  status : Int
  bodyText : String := ""
  access_token : Option String := none
  refresh_token : Option String := none
  id_token : Option String := none
  account_id : Option String := none
  deriving DecidableEq, Repr

/-- OpenAiGateway.refreshToken (openai_gateway.ts lines 359-397) as a
function of the token endpoint reply: throws (Except.error) on non-2xx,
otherwise builds the new token pair from the payload fields. Derived JWT
claims of the new tokens are elided (no claim depends on them), and the
side write through updateTokens is stated separately where needed. -/
def refreshToken (reply : TokenEndpointReply) : Except String TokenPair :=
  if !(respOk reply.status) then
    .error ("token_refresh_failed: " ++ reply.bodyText)
  else
    .ok { accessToken := reply.access_token
          refreshToken := reply.refresh_token
          idToken := reply.id_token
          accountId := reply.account_id }

/-- OpenAiGateway.ensureAccessToken (openai_gateway.ts lines 337-357) for a
single request (the in-flight coalescing map is identity-free with one
caller): return the current access token when fresh, otherwise refresh.
Also returns the number of refresh calls made. -/
def ensureAccessToken (account : AccountState) (now : Int)
    (reply : TokenEndpointReply) : Except String (Option String × Nat) :=
  if isTokenFresh account.tokens.expiresAtMs 90 now then
    .ok (account.tokens.accessToken, 0)
  else
    match refreshToken reply with
    | .error e => .error e
    | .ok updated => .ok (updated.accessToken, 1)

/-- Outcome of OpenAiGateway.forwardRequest together with effect counters:
how many transport calls and refresh calls were made. -/
structure ForwardOutcome where
  result : ForwardResult
  transportCalls : Nat
  refreshCalls : Nat
  deriving DecidableEq, Repr

/-- The result literal returned for a forced quota (openai_gateway.ts lines
127-135). -/
def forcedQuotaResult : ForwardResult :=
  { ok := false, status := 429, authFailure := false, quota := true,
    bodyText := some "forced_quota" }

/-- The result literal returned when override auth is on but no access token
was obtained (openai_gateway.ts lines 138-146). -/
def missingTokenResult : ForwardResult :=
  { ok := false, status := 401, authFailure := true, quota := false,
    bodyText := some "missing_access_token" }

/-- OpenAiGateway.forwardRequest (openai_gateway.ts lines 119-161). Header
construction is elided (it does not influence any modelled result); the two
transports stand for the upstream behaviour of the primary attempt and of
the id-token retry attempt. A raising refresh propagates as Except.error. -/
def forwardRequest (cfg : GatewayConfig) (env : Option String)
    (account : AccountState) (now : Int) (reply : TokenEndpointReply)
    (transport1 transport2 : Nat → FetchOutcome) : Except String ForwardOutcome :=
  if shouldForceQuota env account.name then
    .ok { result := forcedQuotaResult, transportCalls := 0, refreshCalls := 0 }
  else
    let tokenStep : Except String (Option String × Nat) :=
      if cfg.overrideAuth then ensureAccessToken account now reply else .ok (none, 0)
    match tokenStep with
    | .error e => .error e
    | .ok (accessToken, refreshes) =>
      if cfg.overrideAuth && strFalsy accessToken then
        .ok { result := missingTokenResult, transportCalls := 0,
              refreshCalls := refreshes }
      else
        let first := fetchWithRetry cfg transport1 false
        if first.1.authFailure && cfg.overrideAuth
            && !(strFalsy account.tokens.idToken) then
          let second := fetchWithRetry cfg transport2 false
          .ok { result := second.1, transportCalls := first.2 + second.2,
                refreshCalls := refreshes }
        else
          .ok { result := first.1, transportCalls := first.2,
                refreshCalls := refreshes }

/-- What one iteration of the handleRequest loop does with a forward result
(openai_gateway.ts lines 65-97). -/
inductive RouteStep where
  | stopSilently
  | success (account : AccountState) (status : Int)
  | continueRotate (excluded : List String) (account : AccountState)
      (clearedSticky : Bool)
  | errorResponse (status : Int) (body : String)
  deriving DecidableEq, Repr

/-- The classification step of OpenAiGateway.handleRequest (openai_gateway.ts
lines 65-97): aborted stops silently; ok marks success and streams; quota
and auth failures exclude the account, mark it, clear the sticky entry and
continue; anything else is written through to the client. -/
def routeStep (cfg : GatewayConfig) (excluded : List String)
    (selected : AccountState) (response : ForwardResult) (now : Int) : RouteStep :=
  if response.aborted then .stopSilently
  else if response.ok then .success (AccountPool.markSuccess selected) response.status
  else if response.quota then
    .continueRotate (excluded ++ [selected.name])
      (AccountPool.markQuota selected cfg.cooldownSeconds response.resetAtMs now) true
  else if response.authFailure then
    .continueRotate (excluded ++ [selected.name])
      (AccountPool.markAuthFailure selected "auth_failed" now) true
  else .errorResponse response.status (response.bodyText.getD "{}")

/-- An HTTP reply written to the local client. -/
structure HttpReply where
  status : Int
  body : String
  deriving DecidableEq, Repr

/-- The catch handler of startGatewayServer (gateway server wrapper, lines
102-110): an exception escaping handleRequest is answered with a 500 and
the error message as plain text. -/
def serverErrorReply (message : String) : HttpReply :=
  { status := 500, body := message }

/-- Does the character list start with the given needle. -/
def charsStartWith : List Char → List Char → Bool
  | [], _ => true
  | _ :: _, [] => false
  | n :: ns, h :: hs => n = h && charsStartWith ns hs

/-- Does the needle occur anywhere in the haystack character list. -/
def charsContainSub (needle : List Char) : List Char → Bool
  | [] => needle.isEmpty
  | h :: hs => charsStartWith needle (h :: hs) || charsContainSub needle hs

/-- The String.prototype.includes test of the source, on our strings. -/
def strIncludes (hay needle : String) : Bool :=
  charsContainSub needle.toList hay.toList

/-- The String.prototype.startsWith test of the source, on our strings. -/
def strStarts (s pre : String) : Bool :=
  charsStartWith pre.toList s.toList

/-- The String.prototype.endsWith test of the source, on our strings. -/
def strEnds (s suf : String) : Bool :=
  charsStartWith suf.toList.reverse s.toList.reverse

/-- Split a character list at the first question mark; the second component
keeps the question mark (the query part of the URL). -/
def splitAtQuery : List Char → List Char × List Char
  | [] => ([], [])
  | c :: rest =>
    if c = '?' then ([], c :: rest)
    else
      let split := splitAtQuery rest
      (c :: split.1, split.2)

/-- The pathname and search of new URL(requestPath, base) for an inbound
path-plus-query string: pathname is the part before the first question
mark; search keeps the question mark and is empty when the query is empty
(URL fragments and percent-encoding normalisation are not modelled; no
claim input uses them). -/
def parseRequestPath (p : String) : String × String :=
  let split := splitAtQuery p.toList
  (String.mk split.1,
   if split.2 = [] || split.2 = ['?'] then "" else String.mk split.2)

/-- Split an absolute URL after its scheme separator: the first component
is the scheme with the separator, the second everything after it. -/
def splitAfterScheme : List Char → List Char × List Char
  | ':' :: '/' :: '/' :: rest => ([':', '/', '/'], rest)
  | c :: rest =>
    let split := splitAfterScheme rest
    (c :: split.1, split.2)
  | [] => ([], [])

/-- Split host from path at the first slash; the path keeps its slash. -/
def splitHostPath : List Char → List Char × List Char
  | [] => ([], [])
  | c :: rest =>
    if c = '/' then ([], c :: rest)
    else
      let split := splitHostPath rest
      (c :: split.1, split.2)

/-- The origin and pathname of new URL(baseUrl) for an absolute URL: origin
is scheme, separator and host; the pathname of a URL without a path is the
root slash. Queries or fragments in the base URL are not modelled (the
configured bases have none). -/
def parseBaseUrl (baseUrl : String) : String × String :=
  let shl := splitAfterScheme baseUrl.toList
  let hp := splitHostPath shl.2
  (String.mk (shl.1 ++ hp.1), if hp.2 = [] then "/" else String.mk hp.2)

/-- A parsed target URL: the origin (scheme and host) plus the mutable
pathname and search components the source manipulates. -/
structure TargetUrl where
  origin : String
  pathname : String
  search : String
  deriving DecidableEq, Repr

/-- The slice(0, -1) the source applies to a base path ending in a slash. -/
def strDropLast (s : String) : String :=
  String.mk s.toList.dropLast

/-- buildTargetUrl (openai_gateway.ts lines 710-729): concatenate the
stripped base path with the inbound pathname and keep the inbound query;
then, when the base URL contains the well-known codex base and the
concatenated pathname starts with /backend-api/codex/v1/responses, replace
the whole pathname by the compact path and drop the query. -/
def buildTargetUrl (baseUrl requestPath : String) : TargetUrl :=
  let base := parseBaseUrl baseUrl
  let requestUrl := parseRequestPath requestPath
  let basePath := if strEnds base.2 "/" then strDropLast base.2 else base.2
  let requestPathname :=
    if strStarts requestUrl.1 "/" then requestUrl.1 else "/" ++ requestUrl.1
  let pathname := basePath ++ requestPathname
  let search := requestUrl.2
  if strIncludes baseUrl "chatgpt.com/backend-api/codex"
      && strStarts pathname "/backend-api/codex/v1/responses" then
    { origin := base.1, pathname := "/backend-api/codex/responses/compact",
      search := "" }
  else
    { origin := base.1, pathname := pathname, search := search }

/- Concrete fixtures used by counterexamples and witnesses. -/

/-- A sample token pair with both required tokens present. -/
def tokSample : TokenPair := { accessToken := some "tok", refreshToken := some "ref" }

/-- A replacement token pair. -/
def tokNew : TokenPair := { accessToken := some "tok2", refreshToken := some "ref2" }

/-- An account ten seconds into a cooldown that ends at time 10000. -/
def acctCooling : AccountState :=
  { name := "alpha", tokens := tokSample, cooldownUntilMs := 10000 }

/-- An account with recorded failures and a pending cooldown. -/
def acctFailing : AccountState :=
  { name := "beta", tokens := tokSample, cooldownUntilMs := 5000,
    lastError := some "usage_limit_reached", consecutiveFailures := 2 }

/-- An account whose access token expiry is long past. -/
def acctStale : AccountState :=
  { name := "gamma",
    tokens := { accessToken := some "tok", refreshToken := some "ref",
                expiresAtMs := some 1 } }

/-- A token endpoint reply that fails with HTTP 500. -/
def replyBad : TokenEndpointReply := { status := 500, bodyText := "boom" }

/-- A transport that is never reached by the scenarios using it. -/
def tDummy : Nat → FetchOutcome := fun _ => .netError "unreachable"

/-- C1: counterexample. The claim says markQuota never lowers cooldown_until
(it would take the max with the previous value). On an account whose
previous cooldown deadline is 10000, markQuota at now = 0 with a one second
cooldown and no resets_at overwrites the deadline with 1000, moving it
backwards. -/
theorem markQuota_can_lower_cooldown :
    (AccountPool.markQuota acctCooling 1 none 0).cooldownUntilMs = 1000 ∧
    (AccountPool.markQuota acctCooling 1 none 0).cooldownUntilMs
      < acctCooling.cooldownUntilMs := by
  decide

/-- C1 (amended): markQuota sets cooldown_until to exactly the newly
computed deadline, with no max against the previous value, and
markAuthFailure sets it to now plus 60000; consequently both calls leave
cooldown_until at least its previous value whenever the account was
eligible when marked (previous cooldown_until at most now) and the
configured cooldown is non-negative. -/
theorem markQuota_deadline_and_eligible_monotone (a : AccountState) (cs : Int)
    (r : Option Int) (msg : String) (now : Int)
    (hcs : 0 ≤ cs) (helig : a.cooldownUntilMs ≤ now) :
    (AccountPool.markQuota a cs r now).cooldownUntilMs
        = AccountPool.quotaDeadline r cs now ∧
    (AccountPool.markAuthFailure a msg now).cooldownUntilMs = now + 60 * 1000 ∧
    a.cooldownUntilMs ≤ (AccountPool.markQuota a cs r now).cooldownUntilMs ∧
    a.cooldownUntilMs ≤ (AccountPool.markAuthFailure a msg now).cooldownUntilMs := by
  refine ⟨rfl, rfl, ?_, ?_⟩
  · show a.cooldownUntilMs ≤ AccountPool.quotaDeadline r cs now
    cases r with
    | none =>
      show a.cooldownUntilMs ≤ now + cs * 1000
      omega
    | some v =>
      show a.cooldownUntilMs ≤ if v ≠ 0 ∧ v > now then v else now + cs * 1000
      by_cases hv : v ≠ 0 ∧ v > now
      · rw [if_pos hv]; omega
      · rw [if_neg hv]; omega
  · show a.cooldownUntilMs ≤ now + 60 * 1000
    omega

/-- C1: witness for the amended theorem at a concrete eligible account. -/
theorem markQuota_deadline_witness :
    (0:Int) ≤ 900 ∧
    ({ name := "w1", cooldownUntilMs := 5 } : AccountState).cooldownUntilMs ≤ 5 ∧
    (AccountPool.markQuota { name := "w1", cooldownUntilMs := 5 } 900 none
        5).cooldownUntilMs = AccountPool.quotaDeadline none 900 5 :=
  ⟨by decide, by decide,
    (markQuota_deadline_and_eligible_monotone { name := "w1", cooldownUntilMs := 5 }
      900 none "auth_failed" 5 (by decide) (by decide)).1⟩

/-- C4: counterexample. The claim says mark_success leaves cooldown_until at
most now for every account state and time; but markSuccess does not touch
the in-memory cooldown deadline, so an account cooling until 10000 still
has that deadline after markSuccess, which exceeds now = 0. -/
theorem markSuccess_keeps_inmemory_cooldown :
    (AccountPool.markSuccess acctCooling).cooldownUntilMs = 10000 ∧
    ¬ ((AccountPool.markSuccess acctCooling).cooldownUntilMs ≤ (0:Int)) := by
  decide

/-- C4 (amended): markSuccess zeroes consecutive_failures and clears
last_error in memory, leaves the in-memory cooldown_until unchanged, and
clears the cooldown and failure counter only in the persisted status
record. -/
theorem markSuccess_resets_counters_only (a : AccountState) (prev : AccountStatus)
    (now : Int) :
    (AccountPool.markSuccess a).consecutiveFailures = 0 ∧
    (AccountPool.markSuccess a).lastError = none ∧
    (AccountPool.markSuccess a).cooldownUntilMs = a.cooldownUntilMs ∧
    (AccountPool.markSuccessStatus prev now).consecutiveFailures = some 0 ∧
    (AccountPool.markSuccessStatus prev now).cooldownUntilMs = none ∧
    (AccountPool.markSuccessStatus prev now).lastError = none :=
  ⟨rfl, rfl, rfl, rfl, rfl, rfl⟩

/-- C5: counterexample. The claim says update_tokens resets the in-memory
failure counter and cooldown; on an account with two recorded failures and
a pending cooldown, updateTokens replaces the tokens but leaves both
in-memory fields as they were. -/
theorem updateTokens_keeps_inmemory_failures :
    (AccountPool.updateTokens acctFailing tokNew).tokens = tokNew ∧
    (AccountPool.updateTokens acctFailing tokNew).consecutiveFailures = 2 ∧
    ¬ ((AccountPool.updateTokens acctFailing tokNew).consecutiveFailures = 0) ∧
    (AccountPool.updateTokens acctFailing tokNew).cooldownUntilMs = 5000 := by
  decide

/-- C5 (amended): updateTokens replaces the in-memory tokens and persists
exactly the new token fields through the store, while the failure counter
and cooldown are reset only in the persisted status record; the in-memory
counter and cooldown are unchanged. -/
theorem updateTokens_replaces_and_persists (a : AccountState) (t : TokenPair)
    (prev : AccountStatus) (now : Int) :
    (AccountPool.updateTokens a t).tokens = t ∧
    (AccountPool.updateTokens a t).consecutiveFailures = a.consecutiveFailures ∧
    (AccountPool.updateTokens a t).cooldownUntilMs = a.cooldownUntilMs ∧
    AccountPool.persistTokens t
      = { OPENAI_API_KEY := none, access_token := t.accessToken,
          refresh_token := t.refreshToken, id_token := t.idToken,
          account_id := t.accountId } ∧
    (AccountPool.updateTokensStatus prev now).consecutiveFailures = some 0 ∧
    (AccountPool.updateTokensStatus prev now).cooldownUntilMs = none :=
  ⟨rfl, rfl, rfl, rfl, rfl, rfl⟩

/-- C9: counterexample. The claim says is_fresh is true iff the expiry is
unset or strictly beyond the buffer; but the JS truthiness guard also
treats an expiry equal to 0 as unset, so a token that expired at the epoch
is reported fresh at now = 1000 with a zero buffer even though its expiry
is set and past. -/
theorem isTokenFresh_zero_expiry :
    isTokenFresh (some 0) 0 1000 = true ∧ ¬ ((0:Int) - 1000 > 0 * 1000) := by
  decide

/-- C9 (amended): is_fresh returns true iff the expiry is unset, or is 0
(the JS falsiness guard), or lies strictly more than the buffer beyond
now. -/
theorem isTokenFresh_iff_amended (e : Option Int) (b now : Int) :
    isTokenFresh e b now = true ↔
      (e = none ∨ e = some 0 ∨ ∃ v, e = some v ∧ v - now > b * 1000) := by
  cases e with
  | none => simp [isTokenFresh]
  | some v =>
    by_cases hv : v = 0
    · subst hv; simp [isTokenFresh]
    · simp [isTokenFresh, hv]

/-- Eligibility test used to phrase pickNextAvailable as a first search:
not excluded and not cooling down. -/
def eligibleFor (excluded : List String) (now : Int) (a : AccountState) : Bool :=
  !(excluded.contains a.name) && decide (a.cooldownUntilMs ≤ now)

/-- Negation of eligibility, phrased the way the claim words it. -/
theorem not_eligibleFor_iff (excluded : List String) (now : Int) (a : AccountState) :
    (¬ eligibleFor excluded now a = true)
      ↔ (a.name ∈ excluded ∨ now < a.cooldownUntilMs) := by
  unfold eligibleFor
  simp [not_le]
  tauto

/-- pickNextAvailable is the first list element satisfying eligibleFor. -/
theorem pickNextAvailable_eq_find (accounts : List AccountState)
    (excluded : List String) (now : Int) :
    AccountPool.pickNextAvailable accounts excluded now
      = accounts.find? (eligibleFor excluded now) := by
  induction accounts with
  | nil => rfl
  | cons a rest ih =>
    show (if excluded.contains a.name then AccountPool.pickNextAvailable rest excluded now
          else if a.cooldownUntilMs > now then AccountPool.pickNextAvailable rest excluded now
          else some a)
        = (a :: rest).find? (eligibleFor excluded now)
    rw [List.find?]
    by_cases h1 : a.name ∈ excluded
    · have hc : excluded.contains a.name = true := List.elem_iff.mpr h1
      have he : eligibleFor excluded now a = false := by
        simp [eligibleFor, h1]
      rw [if_pos hc, he, ih]
    · have hc : ¬ (excluded.contains a.name = true) := by
        simpa using h1
      by_cases h2 : a.cooldownUntilMs > now
      · have h2' : ¬ (a.cooldownUntilMs ≤ now) := by omega
        have he : eligibleFor excluded now a = false := by
          simp [eligibleFor, h1, h2']
        rw [if_neg hc, if_pos h2, he, ih]
      · have h2' : a.cooldownUntilMs ≤ now := by omega
        have he : eligibleFor excluded now a = true := by
          simp [eligibleFor, h1, h2']
        rw [if_neg hc, if_neg h2, he]

/-- C8: pickNextAvailable returns the first account in the pool order that
is neither excluded nor cooling down, and returns none exactly when no
account qualifies; and the pool order produced from the registry is the
default account first, followed by the remaining registered accounts in
their registered order. -/
theorem pickNextAvailable_first_eligible (accounts : List AccountState)
    (excluded : List String) (now : Int) (r : Registry) (d : String)
    (hd : r.default_account = some d) (hne : d ≠ "") (hmem : d ∈ r.accounts) :
    AccountPool.pickNextAvailable accounts excluded now
        = accounts.find? (eligibleFor excluded now) ∧
    (AccountPool.pickNextAvailable accounts excluded now = none ↔
        ∀ a ∈ accounts, a.name ∈ excluded ∨ now < a.cooldownUntilMs) ∧
    getAccountOrder r = d :: r.accounts.filter (fun n => n ≠ d) := by
  refine ⟨pickNextAvailable_eq_find accounts excluded now, ?_, ?_⟩
  · rw [pickNextAvailable_eq_find accounts excluded now, List.find?_eq_none]
    constructor
    · intro h a ha
      exact (not_eligibleFor_iff excluded now a).mp (h a ha)
    · intro h a ha
      exact (not_eligibleFor_iff excluded now a).mpr (h a ha)
  · have hnil : r.accounts ≠ [] := List.ne_nil_of_mem hmem
    show (if r.accounts = [] then []
          else match r.default_account with
          | none => r.accounts
          | some d => if d = "" then r.accounts
                      else d :: r.accounts.filter (fun n => n ≠ d))
        = d :: r.accounts.filter (fun n => n ≠ d)
    rw [if_neg hnil, hd]
    exact if_neg hne

/-- C8: witness at a concrete pool and registry: the second account is
picked because the first is cooling, and the registry order puts the
default y ahead of x. -/
theorem pickNextAvailable_first_eligible_witness :
    ({ accounts := ["x", "y"], default_account := some "y" } : Registry).default_account
        = some "y" ∧
    "y" ≠ "" ∧
    "y" ∈ ({ accounts := ["x", "y"], default_account := some "y" } : Registry).accounts ∧
    AccountPool.pickNextAvailable
        [{ name := "a", cooldownUntilMs := 100 }, { name := "b" }] [] 0
      = [{ name := "a", cooldownUntilMs := 100 },
         ({ name := "b" } : AccountState)].find? (eligibleFor [] 0) ∧
    getAccountOrder { accounts := ["x", "y"], default_account := some "y" }
      = "y" :: ["x", "y"].filter (fun n => n ≠ "y") :=
  ⟨rfl, by decide, by decide,
    (pickNextAvailable_first_eligible
      [{ name := "a", cooldownUntilMs := 100 }, { name := "b" }] [] 0
      { accounts := ["x", "y"], default_account := some "y" } "y"
      rfl (by decide) (by decide)).1,
    (pickNextAvailable_first_eligible
      [{ name := "a", cooldownUntilMs := 100 }, { name := "b" }] [] 0
      { accounts := ["x", "y"], default_account := some "y" } "y"
      rfl (by decide) (by decide)).2.2⟩

/-- C2: counterexample. For the well-known base and the inbound path the
claim names, the concatenated target path does not start with the marker
the source tests (the base path is prepended first), so the compact rewrite
does not fire: the target keeps the doubled path and the query, and is not
the compact URL with an empty query. -/
theorem buildTargetUrl_claimed_path_not_rewritten :
    buildTargetUrl "https://chatgpt.com/backend-api/codex"
        "/backend-api/codex/v1/responses/foo?x=1"
      = { origin := "https://chatgpt.com",
          pathname := "/backend-api/codex/backend-api/codex/v1/responses/foo",
          search := "?x=1" } ∧
    buildTargetUrl "https://chatgpt.com/backend-api/codex"
        "/backend-api/codex/v1/responses/foo?x=1"
      ≠ { origin := "https://chatgpt.com",
          pathname := "/backend-api/codex/responses/compact", search := "" } := by
  decide

/-- C2 (amended): the compact rewrite fires when the concatenated target
path starts with the marker, which for the well-known base means an inbound
path beginning with /v1/responses: such a request is rewritten to the
compact path with the query dropped, while other inbound paths are appended
to the stripped base path with the query preserved. -/
theorem buildTargetUrl_compact_rewrite :
    buildTargetUrl "https://chatgpt.com/backend-api/codex" "/v1/responses/foo?x=1"
      = { origin := "https://chatgpt.com",
          pathname := "/backend-api/codex/responses/compact", search := "" } ∧
    buildTargetUrl "https://chatgpt.com/backend-api/codex" "/v1/x?q=2"
      = { origin := "https://chatgpt.com",
          pathname := "/backend-api/codex/v1/x", search := "?q=2" } := by
  decide

/-- C6: counterexample. A 401 response whose body is the parsed quota error
is classified as auth_failure, not quota: the 401/403 test runs before the
body is read. -/
theorem quota_body_with_401_is_auth_failure :
    fetchOnce false (.response 401
        { rawText := "q", jsonOk := true, errType := some "usage_limit_reached" })
      = { ok := false, status := 401, quota := false, authFailure := true,
          retryable := false, bodyText := some "q" } ∧
    (fetchOnce false (.response 401
        { rawText := "q", jsonOk := true,
          errType := some "usage_limit_reached" })).quota = false := by
  decide

/-- C6 (amended): provided the status is neither 2xx nor 401 nor 403, a 429
status or a parsed body with error.type usage_limit_reached classifies as
the quota variant and nothing else, carrying resets_at times 1000 when the
body parsed and the field is a non-zero number (a zero or absent field
yields no resets_at, per the JS truthiness guard). -/
theorem quota_classification_amended (status : Int) (body : UpstreamBody)
    (ext : Bool) (h401 : status ≠ 401) (h403 : status ≠ 403)
    (hok : respOk status = false)
    (hq : status = 429 ∨ (body.jsonOk = true ∧ body.errType = some "usage_limit_reached")) :
    fetchOnce ext (.response status body)
      = { ok := false, status := status, authFailure := false, quota := true,
          retryable := false,
          resetAtMs := if body.jsonOk then resetsAtTimes1000 body.errResetsAt else none,
          bodyText := some body.rawText } := by
  have herr : tryReadErrorBody status body
      = some { quota := true,
               resetAtMs := if body.jsonOk then resetsAtTimes1000 body.errResetsAt
                            else none,
               rawText := body.rawText } := by
    unfold tryReadErrorBody
    rw [if_neg (by simp [hok])]
    by_cases hj : body.jsonOk = true
    · rw [if_pos hj, hj, if_pos rfl]
      by_cases ht : body.errType = some "usage_limit_reached"
      · rw [if_pos ht]
      · rw [if_neg ht]
        rcases hq with h429 | ⟨_, ht'⟩
        · rw [if_pos h429]
        · exact absurd ht' ht
    · rw [if_neg hj]
      rcases hq with h429 | ⟨hj', _⟩
      · rw [if_pos h429]
        have : body.jsonOk = false := by
          cases hb : body.jsonOk
          · rfl
          · exact absurd hb hj
        rw [this, if_neg (by simp)]
      · exact absurd hj' hj
  show (if status = 401 || status = 403 then _ else _) = _
  rw [if_neg (by simp [h401, h403]), herr]
  show (if ({ quota := true,
              resetAtMs := if body.jsonOk then resetsAtTimes1000 body.errResetsAt
                           else none,
              rawText := body.rawText } : ErrorBodyInfo).quota = true then _ else _) = _
  rw [if_pos rfl]

/-- C6: witness for the amended classification at a concrete 429 response
carrying resets_at of 7 seconds. -/
theorem quota_classification_witness :
    ((429:Int) ≠ 401) ∧ ((429:Int) ≠ 403) ∧ respOk 429 = false ∧
    fetchOnce false (.response 429
        { rawText := "r", jsonOk := true, errType := some "usage_limit_reached",
          errResetsAt := some 7 })
      = { ok := false, status := 429, authFailure := false, quota := true,
          retryable := false, resetAtMs := some 7000, bodyText := some "r" } :=
  ⟨by decide, by decide, by decide,
    quota_classification_amended 429
      { rawText := "r", jsonOk := true, errType := some "usage_limit_reached",
        errResetsAt := some 7 }
      false (by decide) (by decide) (by decide) (Or.inl rfl)⟩

/-- C10: with the account name in the forced-quota environment list, the
forward step returns the forced quota result with status 429 and body
forced_quota, making no transport call and no refresh call, and the routing
step then excludes the account and applies markQuota with no resets_at,
exactly as for an upstream usage_limit_reached. -/
theorem forced_quota_short_circuit (cfg : GatewayConfig) (env : Option String)
    (account : AccountState) (now : Int) (reply : TokenEndpointReply)
    (t1 t2 : Nat → FetchOutcome) (excluded : List String)
    (hforce : shouldForceQuota env account.name = true) :
    forwardRequest cfg env account now reply t1 t2
        = .ok { result := forcedQuotaResult, transportCalls := 0, refreshCalls := 0 } ∧
    forcedQuotaResult.quota = true ∧
    forcedQuotaResult.status = 429 ∧
    forcedQuotaResult.bodyText = some "forced_quota" ∧
    routeStep cfg excluded account forcedQuotaResult now
        = .continueRotate (excluded ++ [account.name])
            (AccountPool.markQuota account cfg.cooldownSeconds none now) true := by
  refine ⟨?_, rfl, rfl, rfl, rfl⟩
  show (if shouldForceQuota env account.name then _ else _) = _
  rw [if_pos hforce]

/-- C10: witness with a concrete forced list that needs trimming and a
matching account name. -/
theorem forced_quota_short_circuit_witness :
    shouldForceQuota (some " acct1 , acct2 ") "acct1" = true ∧
    forwardRequest {} (some " acct1 , acct2 ") { name := "acct1" } 0 { status := 200 }
        tDummy tDummy
      = .ok { result := forcedQuotaResult, transportCalls := 0, refreshCalls := 0 } :=
  ⟨by decide,
    (forced_quota_short_circuit {} (some " acct1 , acct2 ") { name := "acct1" } 0
      { status := 200 } tDummy tDummy [] (by decide)).1⟩

/-- C3: counterexample. With override_auth on, a stale token and a token
endpoint that answers non-2xx, the refresh raises; the exception escapes
forwardRequest and the server catch answers 500 with the error message,
not 401 with body missing_access_token. -/
theorem refresh_raise_yields_500_not_401 :
    forwardRequest {} none acctStale 1000000 replyBad tDummy tDummy
        = .error "token_refresh_failed: boom" ∧
    serverErrorReply "token_refresh_failed: boom"
        ≠ ({ status := 401, body := "missing_access_token" } : HttpReply) :=
  ⟨rfl, by decide⟩

/-- C3 (amended): when override_auth is on, the account is not forced into
quota, the token is stale and the refresh endpoint answers non-2xx, the
refresh raises and forwardRequest propagates the exception, so the server
catch responds 500 with the token_refresh_failed message; the 401
missing_access_token result arises only when the refresh completes without
yielding a usable access token. -/
theorem refresh_raise_propagates_to_500 (cfg : GatewayConfig) (env : Option String)
    (account : AccountState) (now : Int) (reply : TokenEndpointReply)
    (t1 t2 : Nat → FetchOutcome)
    (hov : cfg.overrideAuth = true)
    (hforce : shouldForceQuota env account.name = false)
    (hstale : isTokenFresh account.tokens.expiresAtMs 90 now = false)
    (hbad : respOk reply.status = false) :
    forwardRequest cfg env account now reply t1 t2
        = .error ("token_refresh_failed: " ++ reply.bodyText) ∧
    serverErrorReply ("token_refresh_failed: " ++ reply.bodyText)
        = { status := 500, body := "token_refresh_failed: " ++ reply.bodyText } := by
  refine ⟨?_, rfl⟩
  have htok : ensureAccessToken account now reply
      = .error ("token_refresh_failed: " ++ reply.bodyText) := by
    unfold ensureAccessToken
    rw [if_neg (by simp [hstale])]
    unfold refreshToken
    rw [if_pos (by simp [hbad])]
  show (if shouldForceQuota env account.name then _ else _) = _
  rw [if_neg (by simp [hforce])]
  show (match (if cfg.overrideAuth then ensureAccessToken account now reply
               else .ok (none, 0)) with
        | .error e => Except.error e
        | .ok (accessToken, refreshes) => _) = _
  rw [if_pos (by simp [hov]), htok]

/-- C3: witness for the amended theorem at the concrete stale account and
failing endpoint. -/
theorem refresh_raise_propagates_witness :
    ({} : GatewayConfig).overrideAuth = true ∧
    shouldForceQuota none acctStale.name = false ∧
    isTokenFresh acctStale.tokens.expiresAtMs 90 1000000 = false ∧
    respOk replyBad.status = false ∧
    forwardRequest {} none acctStale 1000000 replyBad tDummy tDummy
        = .error ("token_refresh_failed: " ++ replyBad.bodyText) :=
  ⟨rfl, rfl, by decide, by decide,
    (refresh_raise_propagates_to_500 {} none acctStale 1000000 replyBad tDummy tDummy
      rfl rfl (by decide) (by decide)).1⟩

/-- Does a single-fetch result end the retry loop regardless of the budget:
a terminal variant, or a non-retryable failure. -/
def notTransientRes (r : ForwardResult) : Bool :=
  stopsRetry r || !r.retryable

/-- The retry loop makes at most fuel transport calls. -/
theorem fetchWithRetryGo_calls_le (t : Nat → FetchOutcome) (ext : Bool)
    (fuel attempt : Nat) :
    (fetchWithRetryGo t ext attempt fuel).2 ≤ fuel := by
  induction fuel generalizing attempt with
  | zero => exact Nat.le_refl 0
  | succ f ih =>
    show (if ext = true then _ else _ : ForwardResult × Nat).2 ≤ f + 1
    by_cases hext : ext = true
    · rw [if_pos hext]
      exact Nat.zero_le _
    · rw [if_neg hext]
      by_cases hs : stopsRetry (fetchOnce ext (t attempt)) = true
      · rw [if_pos hs]
        omega
      · rw [if_neg hs]
        by_cases hr : (!(fetchOnce ext (t attempt)).retryable || decide (f = 0)) = true
        · rw [if_pos hr]
          omega
        · rw [if_neg hr]
          exact Nat.succ_le_succ (ih (attempt + 1))

/-- A first result that is terminal or non-retryable is returned at once,
after exactly one transport call. -/
theorem fetchWithRetryGo_first_stop (t : Nat → FetchOutcome) (f attempt : Nat)
    (h : notTransientRes (fetchOnce false (t attempt)) = true) :
    fetchWithRetryGo t false attempt (f + 1) = (fetchOnce false (t attempt), 1) := by
  show (if (false : Bool) = true then _ else _) = _
  rw [if_neg (by simp)]
  by_cases hs : stopsRetry (fetchOnce false (t attempt)) = true
  · rw [if_pos hs]
  · rw [if_neg hs]
    have hr : (!(fetchOnce false (t attempt)).retryable) = true := by
      rcases Bool.or_eq_true_iff.mp h with h1 | h2
      · exact absurd h1 hs
      · exact h2
    rw [if_pos (by simp [hr])]

/-- Every transport call except the last one in a retry run was preceded by
a transient classification: retryable and not a terminal variant. -/
theorem fetchWithRetryGo_only_transient (t : Nat → FetchOutcome)
    (fuel attempt : Nat) :
    ∀ i, i + 1 < (fetchWithRetryGo t false attempt fuel).2 →
      ((fetchOnce false (t (attempt + i))).retryable = true ∧
       stopsRetry (fetchOnce false (t (attempt + i))) = false) := by
  induction fuel generalizing attempt with
  | zero =>
    intro i hi
    exact absurd hi (by simp [fetchWithRetryGo])
  | succ f ih =>
    intro i hi
    have hgo : fetchWithRetryGo t false attempt (f + 1)
        = (if stopsRetry (fetchOnce false (t attempt)) then
             (fetchOnce false (t attempt), 1)
           else if !(fetchOnce false (t attempt)).retryable || decide (f = 0) then
             (fetchOnce false (t attempt), 1)
           else
             ((fetchWithRetryGo t false (attempt + 1) f).1,
              (fetchWithRetryGo t false (attempt + 1) f).2 + 1)) := by
      show (if (false : Bool) = true then _ else _) = _
      rw [if_neg (by simp)]
    rw [hgo] at hi
    by_cases hs : stopsRetry (fetchOnce false (t attempt)) = true
    · rw [if_pos hs] at hi
      omega
    · rw [if_neg hs] at hi
      by_cases hr : (!(fetchOnce false (t attempt)).retryable || decide (f = 0)) = true
      · rw [if_pos hr] at hi
        omega
      · rw [if_neg hr] at hi
        have hret : (fetchOnce false (t attempt)).retryable = true := by
          rcases Bool.or_eq_true_iff.not.mp hr with h
          cases hret : (fetchOnce false (t attempt)).retryable
          · exact absurd (Or.inl (by simp [hret])) h
          · rfl
        cases i with
        | zero =>
          refine ⟨by simpa using hret, ?_⟩
          cases hss : stopsRetry (fetchOnce false (t (attempt + 0)))
          · rfl
          · exact absurd (by simpa using hss) hs
        | succ j =>
          have := ih (attempt + 1) j (by omega)
          have harith : attempt + 1 + j = attempt + (j + 1) := by omega
          rw [harith] at this
          exact this

/-- C7: with upstream_max_retries k, the retrying fetch makes at most k + 1
transport calls, every call before the last follows a transient
classification, and a first result that is ok, quota, auth_failure,
aborted, or a non-retryable failure is returned immediately after a single
transport call. -/
theorem fetchWithRetry_bounded_and_transient_only (cfg : GatewayConfig)
    (t : Nat → FetchOutcome) (k : Nat) (hk : cfg.upstreamMaxRetries = (k : Int)) :
    (fetchWithRetry cfg t false).2 ≤ k + 1 ∧
    (∀ i, i + 1 < (fetchWithRetry cfg t false).2 →
       ((fetchOnce false (t i)).retryable = true ∧
        stopsRetry (fetchOnce false (t i)) = false)) ∧
    (notTransientRes (fetchOnce false (t 0)) = true →
       fetchWithRetry cfg t false = (fetchOnce false (t 0), 1)) := by
  have hnorm : normalizeRetryCount cfg.upstreamMaxRetries = k := by
    rw [hk]
    exact Int.toNat_natCast k
  unfold fetchWithRetry
  rw [hnorm]
  refine ⟨fetchWithRetryGo_calls_le t false (k + 1) 0, ?_, ?_⟩
  · intro i hi
    simpa using fetchWithRetryGo_only_transient t (k + 1) 0 i hi
  · intro h
    exact fetchWithRetryGo_first_stop t k 0 h

/-- C7: witness at k = 2 with a transport that answers 503, 503, 200: three
calls, the first two transient. -/
theorem fetchWithRetry_bounded_witness :
    ({} : GatewayConfig).upstreamMaxRetries = ((2 : Nat) : Int) ∧
    (fetchWithRetry {}
        (fun i => if i < 2 then .response 503 {} else .response 200 {}) false).2
      ≤ 3 :=
  ⟨by decide,
    (fetchWithRetry_bounded_and_transient_only {}
      (fun i => if i < 2 then .response 503 {} else .response 200 {}) 2
      (by decide)).1⟩



